import Mathlib

/-!
Verification of the intersection construct of JSXGraph (src/Intersection.js).

The file embeds, in Lean, the data model and the operations of
JXG.Intersection: the classification of the two parent elements at
construction time, the per-kind update functions, the existence-propagation
protocol (hideChild / showChild keyed by an originating ancestor id), and
removal. Scene elements are modelled as records holding the fields the code
reads and writes: the type tag, the visibility intent flag
(visProp with key visible), the rendered/shown state, the set of blocking
ancestor ids (notExistingParents), and point coordinates. The board registry
of objects is modelled as a total function from ids to elements; the
descendant collection of a construct is modelled as a predicate on ids.
-/

namespace JXGIntersection

/-- Object type tags mirroring the JXG.OBJECT_TYPE constants that
Intersection.js compares against, plus the point tag for owned points. -/
inductive ObjType where
  | line
  | arrow
  | circle
  | arc
  | intersection
  | point
deriving DecidableEq

/-- A scene element as seen by Intersection.js: its type tag, its visibility
intent flag (visProp with key visible), its rendered state, its
notExistingParents set (JS object keyed by ancestor id, hence a finite set
of ids), and coordinates (used for owned points). -/
structure Element where
  etype : ObjType
  visible : Bool
  shown : Bool
  notExistingParents : Finset String
  coords : Int × Int

/-- The board objects registry, as read by showChild: a map from element id
to element, modelled total because the code only touches ids it holds. -/
def Board := String → Element

/-- Modelled from the spec: the hide operation of the external Point entity
(JXG.Point is not under src). Per the interface contract, hiding clears the
visibility intent flag and suppresses the rendered state. -/
def hideElement (e : Element) : Element :=
  { e with visible := false, shown := false }

/-- Modelled from the spec: the show operation of the external Point entity
(JXG.Point is not under src). Showing sets the visibility intent flag and
the rendered state. -/
def showElement (e : Element) : Element :=
  { e with visible := true, shown := true }

/-- Records an ancestor id a into the notExistingParents of an element,
mirroring the JS assignment of key a on the notExistingParents object. -/
def addBlock (a : String) (e : Element) : Element :=
  { e with notExistingParents := insert a e.notExistingParents }

/-- Deletes an ancestor id a from the notExistingParents of an element,
mirroring the JS delete of key a on the notExistingParents object. -/
def eraseBlock (a : String) (e : Element) : Element :=
  { e with notExistingParents := e.notExistingParents.erase a }

/-- The body of the descendant loop of hideChild: if the descendant is
visible and is not an intersection construct, hide it and then restore its
visible flag to true; in every case record the blocking ancestor id into
its notExistingParents. -/
def hideChildStep (a : String) (e : Element) : Element :=
  let e1 := if e.visible = true ∧ e.etype ≠ ObjType.intersection
    then { hideElement e with visible := true }
    else e
  addBlock a e1

/-- The hideChild operation of a construct: record the blocking ancestor id
a into the construct's own notExistingParents (the construct lives at
selfId in the registry), then run the descendant loop over every element
satisfying desc. -/
def hideChild (b : Board) (selfId : String) (desc : String → Bool)
    (a : String) : Board :=
  let b1 : Board := fun x => if x = selfId then addBlock a (b x) else b x
  fun x => if desc x = true then hideChildStep a (b1 x) else b1 x

/-- The body of the registry loop of showChild: delete the ancestor id a
from the element's notExistingParents; if afterwards the element is visible,
its notExistingParents is empty and it is not an intersection construct,
show it. -/
def showChildStep (a : String) (e : Element) : Element :=
  let e1 := eraseBlock a e
  if e1.visible = true ∧ e1.notExistingParents = ∅ ∧
      e1.etype ≠ ObjType.intersection
    then showElement e1
    else e1

/-- The showChild operation: the loop body is applied to every element of
the board registry. -/
def showChild (b : Board) (a : String) : Board :=
  fun x => showChildStep a (b x)

/-- Writes new coordinates into the point stored at id i, mirroring an
assignment to p.coords through a registry reference. -/
def setCoords (b : Board) (i : String) (c : Int × Int) : Board :=
  fun x => if x = i then { b x with coords := c } else b x

/-- Writes the visibility intent flag of the point stored at id i,
mirroring an assignment to p.visProp with key visible. -/
def setVisibleFlag (b : Board) (i : String) (v : Bool) : Board :=
  fun x => if x = i then { b x with visible := v } else b x

/-- State of a two-point intersection construct (Circle-Circle or
Circle-Line kind): the board registry, the construct's own id, the ids of
its two owned points, its descendant predicate, and its real and
needsUpdate flags. -/
structure CCState where
  board : Board
  selfId : String
  p1Id : String
  p2Id : String
  desc : String → Bool
  real : Bool
  needsUpdate : Bool

/-- A solver result for the circle-involving kinds: a solution count
together with two coordinate slots. -/
def SolverResult := Nat × (Int × Int) × (Int × Int)

/-- The update function of the Circle-Circle branch: return unless
needsUpdate; re-run the solver; save both points' visible flags; on count
zero, if currently real, run hideChild with the construct's own id, restore
both saved visible flags, and clear real; on any other count write both
coordinate slots and, if currently unreal, run showChild with the
construct's own id and set real; finally clear needsUpdate. -/
def updateCC (s : CCState) (sol : SolverResult) : CCState :=
  if s.needsUpdate = false then s
  else
    let p1show := (s.board s.p1Id).visible
    let p2show := (s.board s.p2Id).visible
    if sol.1 = 0 then
      if s.real = true then
        let b1 := hideChild s.board s.selfId s.desc s.selfId
        let b2 := setVisibleFlag b1 s.p1Id p1show
        let b3 := setVisibleFlag b2 s.p2Id p2show
        { s with board := b3, real := false, needsUpdate := false }
      else { s with needsUpdate := false }
    else
      let b1 := setCoords s.board s.p1Id sol.2.1
      let b2 := setCoords b1 s.p2Id sol.2.2
      if s.real = false then
        { s with board := showChild b2 s.selfId, real := true,
                 needsUpdate := false }
      else { s with board := b2, needsUpdate := false }

/-- The update function of the Circle-Line branch: as updateCC on count
zero, but new coordinates and the transition to real happen only on count
exactly two; any other nonzero count (in particular one) falls through both
branches and only needsUpdate is cleared. -/
def updateCL (s : CCState) (sol : SolverResult) : CCState :=
  if s.needsUpdate = false then s
  else
    let show1 := (s.board s.p1Id).visible
    let show2 := (s.board s.p2Id).visible
    if sol.1 = 0 then
      if s.real = true then
        let b1 := hideChild s.board s.selfId s.desc s.selfId
        let b2 := setVisibleFlag b1 s.p1Id show1
        let b3 := setVisibleFlag b2 s.p2Id show2
        { s with board := b3, real := false, needsUpdate := false }
      else { s with needsUpdate := false }
    else if sol.1 = 2 then
      let b1 := setCoords s.board s.p1Id sol.2.1
      let b2 := setCoords b1 s.p2Id sol.2.2
      if s.real = false then
        { s with board := showChild b2 s.selfId, real := true,
                 needsUpdate := false }
      else { s with board := b2, needsUpdate := false }
    else { s with needsUpdate := false }

/-- State of a Line-Line intersection construct: the board registry, the id
of its single owned point, and the needsUpdate flag. -/
structure LLState where
  board : Board
  pId : String
  needsUpdate : Bool

/-- The update function of the Line-Line branch: if needsUpdate is set,
write the solver-provided coordinates into the single owned point and clear
needsUpdate; otherwise do nothing. -/
def updateLL (s : LLState) (c : Int × Int) : LLState :=
  if s.needsUpdate = true then
    { s with board := setCoords s.board s.pId c, needsUpdate := false }
  else s

/-- A freshly constructed owned point: new JXG.Point(board, c, id, name,
v) with visibility v; intent and rendered state both start at v, with an
empty notExistingParents set. -/
def newPoint (c : Int × Int) (v : Bool) : Element :=
  { etype := ObjType.point, visible := v, shown := v,
    notExistingParents := ∅, coords := c }

/-- The Circle-Circle construction branch: allocate both owned points at
placeholder coordinates (0,0) and invisible; then, exactly when the solver
result flag equals one, write both coordinate slots, show both points and
mark the construct real; otherwise leave the points untouched and mark the
construct unreal. Returns (p1, p2, real). -/
def constructCC (sol : SolverResult) : Element × Element × Bool :=
  let p1 := newPoint (0, 0) false
  let p2 := newPoint (0, 0) false
  if sol.1 = 1 then
    (showElement { p1 with coords := sol.2.1 },
     showElement { p2 with coords := sol.2.2 },
     true)
  else (p1, p2, false)

/-- The three supported intersection kinds. -/
inductive Kind where
  | lineLine
  | circleCircle
  | circleLine
deriving DecidableEq

/-- Outcome of running the constructor body: either the early return taken
when the existence guard fires (a permanent no-op construct) or a
classification into one of the three dispatch branches. -/
inductive ConstructOutcome where
  | noop
  | classified (k : Kind)
deriving DecidableEq

/-- The classification chain of the constructor, on the resolved parent
types (none models a reference that resolved to an empty string or
undefined, whose type read yields undefined): the first branch recognises
Line-Line (with Arrow a subtype of Line), the second Circle-Circle (with
Arc a subtype of Circle), and everything else falls into the final else
branch, which builds a Circle-Line construct. -/
def classifyResolved (t1 t2 : Option ObjType) : Kind :=
  if (t1 = t2 ∧ (t1 = some ObjType.line ∨ t1 = some ObjType.arrow))
      ∨ (t1 = some ObjType.line ∧ t2 = some ObjType.arrow)
      ∨ (t2 = some ObjType.line ∧ t1 = some ObjType.arrow)
    then Kind.lineLine
  else if (t1 = t2 ∧ (t1 = some ObjType.circle ∨ t1 = some ObjType.arc))
      ∨ (t1 = some ObjType.circle ∧ t2 = some ObjType.arc)
      ∨ (t2 = some ObjType.circle ∧ t1 = some ObjType.arc)
    then Kind.circleCircle
  else Kind.circleLine

/-- The constructor's dispatch: the existence guard returns early (no-op
construct) only when both resolved parent references are absent; otherwise
the classification chain runs. -/
def constructDispatch (t1 t2 : Option ObjType) : ConstructOutcome :=
  if t1 = none ∧ t2 = none then ConstructOutcome.noop
  else ConstructOutcome.classified (classifyResolved t1 t2)

/-- The registry as touched by removal: a partial map from ids to elements,
where removal of an id deletes its entry. -/
def Registry := String → Option Element

/-- board.removeObject on one id. -/
def removeObject (r : Registry) (i : String) : Registry :=
  fun x => if x = i then none else r x

/-- The owned-point handles of a construct: p is set for the Line-Line
kind, p1 and p2 for the two-point kinds; an absent-parent construct has
none of the three set. -/
structure OwnedPoints where
  p : Option String
  p1 : Option String
  p2 : Option String

/-- The remove method: remove each of p, p1, p2 from the registry when it
is defined, in that order, and nothing else. -/
def removeIntersection (r : Registry) (h : OwnedPoints) : Registry :=
  let r1 := match h.p with
    | some i => removeObject r i
    | none => r
  let r2 := match h.p1 with
    | some i => removeObject r1 i
    | none => r1
  match h.p2 with
  | some i => removeObject r2 i
  | none => r2

/-- Board used by the witness of the blocking-composition claim: every id
holds a point that is blocked by ancestors A and B and currently hidden,
with visible intent true. -/
def boardC1 : Board := fun _ =>
  { etype := ObjType.point, visible := true, shown := false,
    notExistingParents := {"A", "B"}, coords := (0, 0) }

/-- Board used by the witness of the intent-preservation claim: every id
holds a point whose visible intent is false. -/
def boardC5 : Board := fun _ =>
  { etype := ObjType.point, visible := false, shown := false,
    notExistingParents := ∅, coords := (0, 0) }

/-- Board used by the witness of the descendant-recording claim: every id
holds a visible shown point with an empty blocking set. -/
def boardC9 : Board := fun _ =>
  { etype := ObjType.point, visible := true, shown := true,
    notExistingParents := ∅, coords := (0, 0) }

/-- A currently-real two-point construct state with an update pending, used
by witnesses of the update claims. -/
def stateReal : CCState :=
  { board := boardC9, selfId := "i", p1Id := "p", p2Id := "q",
    desc := fun _ => true, real := true, needsUpdate := true }

/-- A currently-unreal two-point construct state with an update pending,
used by the tangency counterexample and witnesses. -/
def stateUnreal : CCState :=
  { board := boardC9, selfId := "i", p1Id := "p", p2Id := "q",
    desc := fun _ => false, real := false, needsUpdate := true }

/-- A two-point construct state with no update pending, used by the
idempotence witness. -/
def stateClean : CCState :=
  { board := boardC9, selfId := "i", p1Id := "p", p2Id := "q",
    desc := fun _ => false, real := true, needsUpdate := false }

/-- A one-point construct state with no update pending, used by the
idempotence witness. -/
def stateCleanLL : LLState :=
  { board := boardC9, pId := "p", needsUpdate := false }

lemma addBlock_visible (a : String) (e : Element) :
    (addBlock a e).visible = e.visible := rfl

lemma addBlock_shown (a : String) (e : Element) :
    (addBlock a e).shown = e.shown := rfl

lemma addBlock_etype (a : String) (e : Element) :
    (addBlock a e).etype = e.etype := rfl

lemma addBlock_coords (a : String) (e : Element) :
    (addBlock a e).coords = e.coords := rfl

lemma eraseBlock_visible (a : String) (e : Element) :
    (eraseBlock a e).visible = e.visible := rfl

lemma eraseBlock_shown (a : String) (e : Element) :
    (eraseBlock a e).shown = e.shown := rfl

lemma eraseBlock_etype (a : String) (e : Element) :
    (eraseBlock a e).etype = e.etype := rfl

lemma eraseBlock_coords (a : String) (e : Element) :
    (eraseBlock a e).coords = e.coords := rfl

lemma eraseBlock_notExistingParents (a : String) (e : Element) :
    (eraseBlock a e).notExistingParents =
      e.notExistingParents.erase a := rfl

lemma hideChildStep_visible (a : String) (e : Element) :
    (hideChildStep a e).visible = e.visible := by
  unfold hideChildStep hideElement addBlock
  by_cases h : e.visible = true ∧ e.etype ≠ ObjType.intersection
  · simp [h]
  · simp [h]

lemma hideChildStep_coords (a : String) (e : Element) :
    (hideChildStep a e).coords = e.coords := by
  unfold hideChildStep hideElement addBlock
  by_cases h : e.visible = true ∧ e.etype ≠ ObjType.intersection
  · simp [h]
  · simp [h]

lemma hideChildStep_mem (a : String) (e : Element) :
    a ∈ (hideChildStep a e).notExistingParents := by
  unfold hideChildStep addBlock
  by_cases h : e.visible = true ∧ e.etype ≠ ObjType.intersection
  · simp [h]
  · simp [h]

lemma hideChildStep_shown (a : String) (e : Element) :
    (hideChildStep a e).shown =
      (if e.visible = true ∧ e.etype ≠ ObjType.intersection
        then false else e.shown) := by
  unfold hideChildStep hideElement addBlock
  by_cases h : e.visible = true ∧ e.etype ≠ ObjType.intersection
  · simp [h]
  · simp [h]

lemma showChildStep_coords (a : String) (e : Element) :
    (showChildStep a e).coords = e.coords := by
  unfold showChildStep showElement eraseBlock
  by_cases h : e.visible = true ∧ e.notExistingParents.erase a = ∅ ∧
      e.etype ≠ ObjType.intersection
  · simp [h]
  · simp [h]

lemma showChildStep_eq (a : String) (e : Element) :
    showChildStep a e =
      if (eraseBlock a e).visible = true ∧
          (eraseBlock a e).notExistingParents = ∅ ∧
          (eraseBlock a e).etype ≠ ObjType.intersection
        then showElement (eraseBlock a e)
        else eraseBlock a e :=
  rfl

lemma hideChild_apply (b : Board) (selfId : String) (desc : String → Bool)
    (a x : String) :
    (hideChild b selfId desc a) x =
      (if desc x = true then hideChildStep a else id)
        (if x = selfId then addBlock a (b x) else b x) := by
  unfold hideChild
  by_cases h : desc x = true
  · simp [h]
  · simp [h]

lemma hideChild_visible (b : Board) (selfId : String) (desc : String → Bool)
    (a x : String) :
    ((hideChild b selfId desc a) x).visible = (b x).visible := by
  rw [hideChild_apply]
  by_cases hd : desc x = true
  · rw [if_pos hd]
    by_cases hs : x = selfId
    · rw [if_pos hs, hideChildStep_visible, addBlock_visible]
    · rw [if_neg hs, hideChildStep_visible]
  · rw [if_neg hd]
    simp only [id_eq]
    by_cases hs : x = selfId
    · rw [if_pos hs, addBlock_visible]
    · rw [if_neg hs]

lemma setVisibleFlag_notExistingParents (b : Board) (i : String) (v : Bool)
    (x : String) :
    ((setVisibleFlag b i v) x).notExistingParents =
      (b x).notExistingParents := by
  unfold setVisibleFlag
  by_cases h : x = i
  · simp [h]
  · simp [h]

lemma setVisibleFlag_shown (b : Board) (i : String) (v : Bool) (x : String) :
    ((setVisibleFlag b i v) x).shown = (b x).shown := by
  unfold setVisibleFlag
  by_cases h : x = i
  · simp [h]
  · simp [h]

lemma setVisibleFlag_visible (b : Board) (i : String) (v : Bool) (x : String) :
    ((setVisibleFlag b i v) x).visible =
      if x = i then v else (b x).visible := by
  unfold setVisibleFlag
  by_cases h : x = i
  · simp [h]
  · simp [h]

lemma setCoords_coords (b : Board) (i : String) (c : Int × Int) (x : String) :
    ((setCoords b i c) x).coords = if x = i then c else (b x).coords := by
  unfold setCoords
  by_cases h : x = i
  · simp [h]
  · simp [h]

lemma showChild_coords (b : Board) (a x : String) :
    ((showChild b a) x).coords = (b x).coords :=
  showChildStep_coords a (b x)

lemma showElement_shown (e : Element) : (showElement e).shown = true := rfl

lemma showElement_visible (e : Element) :
    (showElement e).visible = true := rfl

lemma setVisibleFlag_coords (b : Board) (i : String) (v : Bool)
    (x : String) :
    ((setVisibleFlag b i v) x).coords = (b x).coords := by
  unfold setVisibleFlag
  by_cases h : x = i
  · simp [h]
  · simp [h]

lemma hideChild_coords (b : Board) (selfId : String) (desc : String → Bool)
    (a x : String) :
    ((hideChild b selfId desc a) x).coords = (b x).coords := by
  rw [hideChild_apply]
  by_cases hd : desc x = true
  · rw [if_pos hd]
    by_cases hs : x = selfId
    · rw [if_pos hs, hideChildStep_coords, addBlock_coords]
    · rw [if_neg hs, hideChildStep_coords]
  · rw [if_neg hd]
    simp only [id_eq]
    by_cases hs : x = selfId
    · rw [if_pos hs, addBlock_coords]
    · rw [if_neg hs]

lemma hideChild_mem_desc (b : Board) (selfId : String) (desc : String → Bool)
    (a x : String) (hx : desc x = true) :
    a ∈ ((hideChild b selfId desc a) x).notExistingParents := by
  rw [hideChild_apply, if_pos hx]
  exact hideChildStep_mem a _

lemma hideChild_shown_desc (b : Board) (selfId : String)
    (desc : String → Bool) (a x : String) (hx : desc x = true) :
    ((hideChild b selfId desc a) x).shown =
      (if (b x).visible = true ∧ (b x).etype ≠ ObjType.intersection
        then false else (b x).shown) := by
  rw [hideChild_apply, if_pos hx]
  by_cases hs : x = selfId
  · rw [if_pos hs, hideChildStep_shown]
    simp [addBlock_visible, addBlock_etype, addBlock_shown]
  · rw [if_neg hs]
    exact hideChildStep_shown a (b x)

lemma hideChild_mem_self (b : Board) (selfId : String)
    (desc : String → Bool) (a : String) :
    a ∈ ((hideChild b selfId desc a) selfId).notExistingParents := by
  rw [hideChild_apply, if_pos rfl]
  by_cases hd : desc selfId = true
  · rw [if_pos hd]
    exact hideChildStep_mem a _
  · rw [if_neg hd]
    simp [addBlock]

lemma showChild_notExistingParents (b : Board) (a x : String) :
    ((showChild b a) x).notExistingParents =
      (b x).notExistingParents.erase a := by
  show (showChildStep a (b x)).notExistingParents = _
  rw [showChildStep_eq]
  by_cases h : (eraseBlock a (b x)).visible = true ∧
      (eraseBlock a (b x)).notExistingParents = ∅ ∧
      (eraseBlock a (b x)).etype ≠ ObjType.intersection
  · rw [if_pos h]
    rfl
  · rw [if_neg h]
    exact eraseBlock_notExistingParents a (b x)

lemma updateLL_noop (s : LLState) (c : Int × Int)
    (h : s.needsUpdate = false) : updateLL s c = s := by
  unfold updateLL
  rw [h]
  simp

lemma updateCC_noop (s : CCState) (sol : SolverResult)
    (h : s.needsUpdate = false) : updateCC s sol = s := by
  unfold updateCC
  rw [h]
  exact if_pos rfl

lemma updateCL_noop (s : CCState) (sol : SolverResult)
    (h : s.needsUpdate = false) : updateCL s sol = s := by
  unfold updateCL
  rw [h]
  exact if_pos rfl

lemma updateLL_clears (s : LLState) (c : Int × Int) :
    (updateLL s c).needsUpdate = false := by
  unfold updateLL
  by_cases h : s.needsUpdate = true
  · rw [if_pos h]
  · rw [if_neg h]
    exact Bool.not_eq_true s.needsUpdate |>.mp h

lemma updateCC_clears (s : CCState) (sol : SolverResult) :
    (updateCC s sol).needsUpdate = false := by
  by_cases h : s.needsUpdate = false
  · rw [updateCC_noop s sol h]
    exact h
  · unfold updateCC
    rw [if_neg h]
    dsimp only
    split
    · split <;> rfl
    · split <;> rfl

lemma updateCL_clears (s : CCState) (sol : SolverResult) :
    (updateCL s sol).needsUpdate = false := by
  by_cases h : s.needsUpdate = false
  · rw [updateCL_noop s sol h]
    exact h
  · unfold updateCL
    rw [if_neg h]
    dsimp only
    split
    · split <;> rfl
    · split
      · split <;> rfl
      · rfl

lemma updateCL_zero (s : CCState) (c1 c2 : Int × Int) :
    updateCL s (0, c1, c2) = updateCC s (0, c1, c2) := by
  unfold updateCL updateCC
  simp

/-- Claim C1: if two distinct ancestor ids A and B are both recorded in the
notExistingParents of element E, running showChild A leaves E hidden; only
after both showChild A and showChild B have run is E shown, and then
exactly when the visible intent of E is true and E is not itself an
intersection construct. -/
theorem C1_blocking_composition (b : Board) (eId A B : String)
    (hAB : A ≠ B)
    (hNE : (b eId).notExistingParents = {A, B})
    (hHidden : (b eId).shown = false) :
    ((showChild b A) eId).shown = false ∧
    (((showChild (showChild b A) B) eId).shown = true ↔
      ((b eId).visible = true ∧ (b eId).etype ≠ ObjType.intersection)) := by
  have hA : A ∉ ({B} : Finset String) := by
    simp [hAB]
  have herase1 : ({A, B} : Finset String).erase A = {B} :=
    Finset.erase_insert hA
  have herase2 : ({B} : Finset String).erase B = ∅ :=
    Finset.erase_singleton B
  have hstep1 : (showChild b A) eId = eraseBlock A (b eId) := by
    show showChildStep A (b eId) = _
    rw [showChildStep_eq]
    simp only [eraseBlock_visible, eraseBlock_etype,
      eraseBlock_notExistingParents, hNE, herase1]
    simp [Finset.singleton_ne_empty]
  constructor
  · rw [hstep1, eraseBlock_shown]
    exact hHidden
  · have hstep2 : (showChild (showChild b A) B) eId =
        showChildStep B (eraseBlock A (b eId)) := by
      show showChildStep B ((showChild b A) eId) = _
      rw [hstep1]
    rw [hstep2, showChildStep_eq]
    simp only [eraseBlock_visible, eraseBlock_etype,
      eraseBlock_notExistingParents, hNE, herase1, herase2]
    by_cases hv : (b eId).visible = true
    · by_cases ht : (b eId).etype = ObjType.intersection
      · simp [hv, ht, eraseBlock_shown, hHidden]
      · simp [hv, ht, showElement_shown]
    · simp [hv, eraseBlock_shown, hHidden]

/-- Witness for claim C1 at a concrete board and concrete ids. -/
theorem C1_blocking_composition_witness :
    ("A" : String) ≠ "B" ∧
    (boardC1 "E").notExistingParents = {"A", "B"} ∧
    (boardC1 "E").shown = false ∧
    (((showChild boardC1 "A") "E").shown = false ∧
     (((showChild (showChild boardC1 "A") "B") "E").shown = true ↔
       ((boardC1 "E").visible = true ∧
        (boardC1 "E").etype ≠ ObjType.intersection))) :=
  ⟨by decide, rfl, rfl,
   C1_blocking_composition boardC1 "E" "A" "B" (by decide) rfl rfl⟩

/-- Claim C5: an element whose visible intent is false before a blocking
ancestor hides it stays unshown after that ancestor's showChild runs: its
visible intent remains false and its rendered state is exactly what it was
before the block was applied. -/
theorem C5_restore_respects_intent (b : Board) (cid a eId : String)
    (desc : String → Bool) (hdesc : desc eId = true)
    (hne : eId ≠ cid) (hIntent : (b eId).visible = false) :
    ((showChild (hideChild b cid desc a) a) eId).visible = false ∧
    ((showChild (hideChild b cid desc a) a) eId).shown = (b eId).shown := by
  have hguard : ¬((b eId).visible = true ∧
      (b eId).etype ≠ ObjType.intersection) := by
    rw [hIntent]
    simp
  have h1 : (hideChild b cid desc a) eId = addBlock a (b eId) := by
    rw [hideChild_apply, if_pos hdesc, if_neg hne]
    unfold hideChildStep
    simp [hguard]
  have h2 : (showChild (hideChild b cid desc a) a) eId =
      showChildStep a ((hideChild b cid desc a) eId) := rfl
  rw [h2, h1, showChildStep_eq]
  simp [eraseBlock_visible, addBlock_visible, eraseBlock_shown,
    addBlock_shown, hIntent]

/-- Witness for claim C5 at a concrete board and concrete ids. -/
theorem C5_restore_respects_intent_witness :
    ((fun (_ : String) => true) "E") = true ∧
    ("E" : String) ≠ "c" ∧
    (boardC5 "E").visible = false ∧
    (((showChild (hideChild boardC5 "c" (fun _ => true) "a") "a") "E").visible
        = false ∧
     ((showChild (hideChild boardC5 "c" (fun _ => true) "a") "a") "E").shown
        = (boardC5 "E").shown) :=
  ⟨rfl, by decide, rfl,
   C5_restore_respects_intent boardC5 "c" "a" "E" (fun _ => true) rfl
     (by decide) rfl⟩

/-- Claim C9: hideChild records the blocking ancestor id into the
notExistingParents of every descendant without exception (the visible
intent of each descendant is preserved, so invisible descendants and
intersection-construct descendants are recorded too), while the rendered
state of a descendant is suppressed exactly when it was visible and is not
an intersection construct; the construct itself also records the id. -/
theorem C9_hideChild_records_every_descendant (b : Board)
    (selfId a x : String) (desc : String → Bool) (hx : desc x = true) :
    a ∈ ((hideChild b selfId desc a) x).notExistingParents ∧
    ((hideChild b selfId desc a) x).visible = (b x).visible ∧
    ((hideChild b selfId desc a) x).shown =
      (if (b x).visible = true ∧ (b x).etype ≠ ObjType.intersection
        then false else (b x).shown) ∧
    a ∈ ((hideChild b selfId desc a) selfId).notExistingParents := by
  refine ⟨?_, hideChild_visible b selfId desc a x, ?_, ?_⟩
  · rw [hideChild_apply, if_pos hx]
    exact hideChildStep_mem a _
  · rw [hideChild_apply, if_pos hx]
    by_cases hs : x = selfId
    · rw [if_pos hs, hideChildStep_shown]
      simp [addBlock_visible, addBlock_etype, addBlock_shown]
    · rw [if_neg hs]
      exact hideChildStep_shown a (b x)
  · rw [hideChild_apply, if_pos rfl]
    by_cases hd : desc selfId = true
    · rw [if_pos hd]
      exact hideChildStep_mem a _
    · rw [if_neg hd]
      simp [addBlock]

/-- Witness for claim C9 at a concrete board and concrete ids. -/
theorem C9_hideChild_records_every_descendant_witness :
    ((fun (_ : String) => true) "x") = true ∧
    ("i" ∈ ((hideChild boardC9 "s" (fun _ => true) "i") "x").notExistingParents ∧
     ((hideChild boardC9 "s" (fun _ => true) "i") "x").visible =
        (boardC9 "x").visible ∧
     ((hideChild boardC9 "s" (fun _ => true) "i") "x").shown =
        (if (boardC9 "x").visible = true ∧
            (boardC9 "x").etype ≠ ObjType.intersection
          then false else (boardC9 "x").shown) ∧
     "i" ∈ ((hideChild boardC9 "s" (fun _ => true) "i") "s").notExistingParents) :=
  ⟨rfl,
   C9_hideChild_records_every_descendant boardC9 "s" "i" "x"
     (fun _ => true) rfl⟩

lemma updateCC_zero_real (s : CCState) (c1 c2 : Int × Int)
    (hnu : s.needsUpdate = true) (hr : s.real = true) :
    updateCC s (0, c1, c2) =
      { s with board := setVisibleFlag (setVisibleFlag (hideChild s.board s.selfId s.desc s.selfId) s.p1Id (s.board s.p1Id).visible) s.p2Id (s.board s.p2Id).visible, real := false, needsUpdate := false } := by
  unfold updateCC
  rw [hnu, hr]
  simp

lemma updateCC_zero_unreal (s : CCState) (c1 c2 : Int × Int)
    (hnu : s.needsUpdate = true) (hr : s.real = false) :
    updateCC s (0, c1, c2) = { s with needsUpdate := false } := by
  unfold updateCC
  rw [hnu, hr]
  simp

lemma updateCC_pos (s : CCState) (n : Nat) (c1 c2 : Int × Int)
    (hnu : s.needsUpdate = true) (hn : ¬n = 0) :
    updateCC s (n, c1, c2) =
      (if s.real = false
        then { s with board := showChild (setCoords (setCoords s.board s.p1Id c1) s.p2Id c2) s.selfId, real := true, needsUpdate := false }
        else { s with board := setCoords (setCoords s.board s.p1Id c1) s.p2Id c2, needsUpdate := false }) := by
  unfold updateCC
  rw [hnu]
  simp [hn]

lemma updateCL_two (s : CCState) (c1 c2 : Int × Int)
    (hnu : s.needsUpdate = true) :
    updateCL s (2, c1, c2) =
      (if s.real = false
        then { s with board := showChild (setCoords (setCoords s.board s.p1Id c1) s.p2Id c2) s.selfId, real := true, needsUpdate := false }
        else { s with board := setCoords (setCoords s.board s.p1Id c1) s.p2Id c2, needsUpdate := false }) := by
  unfold updateCL
  rw [hnu]
  simp

lemma updateCL_other (s : CCState) (n : Nat) (c1 c2 : Int × Int)
    (hnu : s.needsUpdate = true) (h0 : ¬n = 0) (h2 : ¬n = 2) :
    updateCL s (n, c1, c2) = { s with needsUpdate := false } := by
  unfold updateCL
  rw [hnu]
  simp [h0, h2]

lemma coordsPair (b : Board) (p1 p2 : String) (c1 c2 : Int × Int)
    (hp : p1 ≠ p2) :
    ((setCoords (setCoords b p1 c1) p2 c2) p1).coords = c1 ∧
    ((setCoords (setCoords b p1 c1) p2 c2) p2).coords = c2 := by
  constructor
  · rw [setCoords_coords, if_neg hp, setCoords_coords, if_pos rfl]
  · rw [setCoords_coords, if_pos rfl]

/-- Claim C6: on the reality transition to unreal during a circle-involving
update, the hide propagation runs keyed by the construct's own id (the id
is recorded on the construct itself and on every descendant), every
element's visible intent flag afterwards equals its value before the update
(the owned points' saved flags are written back, and hiding restores the
flag of each descendant it hides), while currently-visible non-intersection
descendants have their rendered state suppressed; the Circle-Line update on
count zero is the same function as the Circle-Circle one. -/
theorem C6_unreal_transition_preserves_intent (s : CCState)
    (c1 c2 : Int × Int) (hnu : s.needsUpdate = true)
    (hreal : s.real = true) :
    ((updateCC s (0, c1, c2)).real = false ∧
     (∀ x, ((updateCC s (0, c1, c2)).board x).visible =
        (s.board x).visible) ∧
     s.selfId ∈ ((updateCC s (0, c1, c2)).board s.selfId).notExistingParents ∧
     (∀ x, s.desc x = true →
       s.selfId ∈ ((updateCC s (0, c1, c2)).board x).notExistingParents) ∧
     (∀ x, s.desc x = true →
       ((updateCC s (0, c1, c2)).board x).shown =
         (if (s.board x).visible = true ∧
             (s.board x).etype ≠ ObjType.intersection
           then false else (s.board x).shown))) ∧
    updateCL s (0, c1, c2) = updateCC s (0, c1, c2) := by
  have heq := updateCC_zero_real s c1 c2 hnu hreal
  refine ⟨⟨?_, ?_, ?_, ?_, ?_⟩, updateCL_zero s c1 c2⟩
  · rw [heq]
  · intro x
    rw [heq]
    dsimp only
    rw [setVisibleFlag_visible, setVisibleFlag_visible, hideChild_visible]
    by_cases h2 : x = s.p2Id
    · rw [if_pos h2, h2]
    · rw [if_neg h2]
      by_cases h1 : x = s.p1Id
      · rw [if_pos h1, h1]
      · rw [if_neg h1]
  · rw [heq]
    dsimp only
    rw [setVisibleFlag_notExistingParents, setVisibleFlag_notExistingParents]
    exact hideChild_mem_self s.board s.selfId s.desc s.selfId
  · intro x hx
    rw [heq]
    dsimp only
    rw [setVisibleFlag_notExistingParents, setVisibleFlag_notExistingParents]
    exact hideChild_mem_desc s.board s.selfId s.desc s.selfId x hx
  · intro x hx
    rw [heq]
    dsimp only
    rw [setVisibleFlag_shown, setVisibleFlag_shown]
    exact hideChild_shown_desc s.board s.selfId s.desc s.selfId x hx

/-- Witness for claim C6 at a concrete pending real construct state. -/
theorem C6_unreal_transition_preserves_intent_witness :
    stateReal.needsUpdate = true ∧ stateReal.real = true ∧
    (((updateCC stateReal (0, (1, 2), (3, 4))).real = false ∧
      (∀ x, ((updateCC stateReal (0, (1, 2), (3, 4))).board x).visible =
         (stateReal.board x).visible) ∧
      stateReal.selfId ∈
        ((updateCC stateReal (0, (1, 2), (3, 4))).board
          stateReal.selfId).notExistingParents ∧
      (∀ x, stateReal.desc x = true →
        stateReal.selfId ∈
          ((updateCC stateReal (0, (1, 2), (3, 4))).board
            x).notExistingParents) ∧
      (∀ x, stateReal.desc x = true →
        ((updateCC stateReal (0, (1, 2), (3, 4))).board x).shown =
          (if (stateReal.board x).visible = true ∧
              (stateReal.board x).etype ≠ ObjType.intersection
            then false else (stateReal.board x).shown))) ∧
     updateCL stateReal (0, (1, 2), (3, 4)) =
       updateCC stateReal (0, (1, 2), (3, 4))) :=
  ⟨rfl, rfl,
   C6_unreal_transition_preserves_intent stateReal (1, 2) (3, 4) rfl rfl⟩

/-- Claim C2 (amended): with an update pending, solver count zero makes
either circle-involving kind unreal; a nonzero count makes the
Circle-Circle kind real with both coordinates written; for the Circle-Line
kind only count two makes it real with both coordinates written, while any
other nonzero count (in particular count one) leaves reality, the board and
all coordinates unchanged and only clears needsUpdate. -/
theorem C2_amended_reality_thresholds (s : CCState) (n : Nat)
    (c1 c2 : Int × Int) (hnu : s.needsUpdate = true)
    (hp : s.p1Id ≠ s.p2Id) :
    ((updateCC s (n, c1, c2)).real = decide (n ≠ 0) ∧
     ((updateCC s (n, c1, c2)).board s.p1Id).coords =
       (if n = 0 then (s.board s.p1Id).coords else c1) ∧
     ((updateCC s (n, c1, c2)).board s.p2Id).coords =
       (if n = 0 then (s.board s.p2Id).coords else c2)) ∧
    ((updateCL s (n, c1, c2)).real =
       (if n = 0 then false else if n = 2 then true else s.real) ∧
     ((updateCL s (n, c1, c2)).board s.p1Id).coords =
       (if n = 2 then c1 else (s.board s.p1Id).coords) ∧
     ((updateCL s (n, c1, c2)).board s.p2Id).coords =
       (if n = 2 then c2 else (s.board s.p2Id).coords) ∧
     (¬n = 0 → ¬n = 2 →
       updateCL s (n, c1, c2) = { s with needsUpdate := false })) := by
  by_cases hn0 : n = 0
  · subst hn0
    have hCL := updateCL_zero s c1 c2
    have hCC : (updateCC s (0, c1, c2)).real = false ∧
        (∀ x, ((updateCC s (0, c1, c2)).board x).coords =
          (s.board x).coords) := by
      by_cases hr : s.real = true
      · have heq := updateCC_zero_real s c1 c2 hnu hr
        rw [heq]
        refine ⟨rfl, ?_⟩
        intro x
        dsimp only
        rw [setVisibleFlag_coords, setVisibleFlag_coords, hideChild_coords]
      · have hr2 : s.real = false := by
          exact Bool.not_eq_true s.real |>.mp hr
        have heq := updateCC_zero_unreal s c1 c2 hnu hr2
        rw [heq]
        exact ⟨hr2, fun x => rfl⟩
    refine ⟨⟨?_, ?_, ?_⟩, ?_, ?_, ?_, ?_⟩
    · rw [hCC.1]
      simp
    · rw [hCC.2 s.p1Id]
      simp
    · rw [hCC.2 s.p2Id]
      simp
    · rw [hCL, hCC.1]
      simp
    · rw [hCL, hCC.2 s.p1Id]
      simp
    · rw [hCL, hCC.2 s.p2Id]
      simp
    · intro h0 _
      exact absurd rfl h0
  · have hCC := updateCC_pos s n c1 c2 hnu hn0
    have hpair := coordsPair s.board s.p1Id s.p2Id c1 c2 hp
    have hCCreal : (updateCC s (n, c1, c2)).real = true := by
      rw [hCC]
      by_cases hr : s.real = false
      · rw [if_pos hr]
      · rw [if_neg hr]
        exact Bool.not_eq_false s.real |>.mp hr
    have hCCc1 : ((updateCC s (n, c1, c2)).board s.p1Id).coords = c1 := by
      rw [hCC]
      by_cases hr : s.real = false
      · rw [if_pos hr]
        dsimp only
        rw [showChild_coords]
        exact hpair.1
      · rw [if_neg hr]
        exact hpair.1
    have hCCc2 : ((updateCC s (n, c1, c2)).board s.p2Id).coords = c2 := by
      rw [hCC]
      by_cases hr : s.real = false
      · rw [if_pos hr]
        dsimp only
        rw [showChild_coords]
        exact hpair.2
      · rw [if_neg hr]
        exact hpair.2
    refine ⟨⟨?_, ?_, ?_⟩, ?_⟩
    · rw [hCCreal]
      simp [hn0]
    · rw [hCCc1, if_neg hn0]
    · rw [hCCc2, if_neg hn0]
    · by_cases hn2 : n = 2
      · subst hn2
        have hCL := updateCL_two s c1 c2 hnu
        refine ⟨?_, ?_, ?_, ?_⟩
        · rw [hCL]
          by_cases hr : s.real = false
          · rw [if_pos hr]
            simp
          · rw [if_neg hr]
            simp
            exact Bool.not_eq_false s.real |>.mp hr
        · rw [hCL]
          by_cases hr : s.real = false
          · rw [if_pos hr]
            dsimp only
            rw [showChild_coords]
            simp [hpair.1]
          · rw [if_neg hr]
            simp [hpair.1]
        · rw [hCL]
          by_cases hr : s.real = false
          · rw [if_pos hr]
            dsimp only
            rw [showChild_coords]
            simp [hpair.2]
          · rw [if_neg hr]
            simp [hpair.2]
        · intro _ h2
          exact absurd rfl h2
      · have hCL := updateCL_other s n c1 c2 hnu hn0 hn2
        rw [hCL]
        refine ⟨?_, ?_, ?_, ?_⟩
        · simp [hn0, hn2]
        · simp [hn2]
        · simp [hn2]
        · intro _ _
          rfl

/-- Witness for claim C2 at a concrete pending construct state with
distinct owned points and solver count two. -/
theorem C2_amended_reality_thresholds_witness :
    stateUnreal.needsUpdate = true ∧ stateUnreal.p1Id ≠ stateUnreal.p2Id ∧
    (((updateCC stateUnreal (2, (3, 4), (5, 6))).real = decide ((2:Nat) ≠ 0) ∧
      ((updateCC stateUnreal (2, (3, 4), (5, 6))).board
          stateUnreal.p1Id).coords =
        (if (2:Nat) = 0 then (stateUnreal.board stateUnreal.p1Id).coords
          else (3, 4)) ∧
      ((updateCC stateUnreal (2, (3, 4), (5, 6))).board
          stateUnreal.p2Id).coords =
        (if (2:Nat) = 0 then (stateUnreal.board stateUnreal.p2Id).coords
          else (5, 6))) ∧
     ((updateCL stateUnreal (2, (3, 4), (5, 6))).real =
        (if (2:Nat) = 0 then false else if (2:Nat) = 2 then true
          else stateUnreal.real) ∧
      ((updateCL stateUnreal (2, (3, 4), (5, 6))).board
          stateUnreal.p1Id).coords =
        (if (2:Nat) = 2 then (3, 4)
          else (stateUnreal.board stateUnreal.p1Id).coords) ∧
      ((updateCL stateUnreal (2, (3, 4), (5, 6))).board
          stateUnreal.p2Id).coords =
        (if (2:Nat) = 2 then (5, 6)
          else (stateUnreal.board stateUnreal.p2Id).coords) ∧
      (¬(2:Nat) = 0 → ¬(2:Nat) = 2 →
        updateCL stateUnreal (2, (3, 4), (5, 6)) =
          { stateUnreal with needsUpdate := false }))) :=
  ⟨rfl, by decide,
   C2_amended_reality_thresholds stateUnreal 2 (3, 4) (5, 6) rfl
     (by decide)⟩

/-- Counterexample to claim C2 as stated: a Circle-Line update with solver
count one (nonzero) on an unreal construct leaves the construct unreal and
writes no coordinates, contradicting that any count of at least one makes
the construct real with new coordinates in both owned points. -/
theorem C2_circle_line_count_one_counterexample :
    stateUnreal.needsUpdate = true ∧ stateUnreal.real = false ∧
    (updateCL stateUnreal (1, (3, 4), (5, 6))).real = false ∧
    ((updateCL stateUnreal (1, (3, 4), (5, 6))).board "p").coords = (0, 0) :=
  ⟨rfl, rfl, rfl, rfl⟩

/-- Claim C7: with needsUpdate unset, each kind's update is the identity on
the whole construct state, and any second consecutive update call produces
no further change. -/
theorem C7_update_noop_idempotent (sLL : LLState) (sCC sCL : CCState)
    (c : Int × Int) (r : SolverResult)
    (h1 : sLL.needsUpdate = false) (h2 : sCC.needsUpdate = false)
    (h3 : sCL.needsUpdate = false) :
    (updateLL sLL c = sLL ∧ updateCC sCC r = sCC ∧ updateCL sCL r = sCL) ∧
    (∀ (t : LLState) (d d2 : Int × Int),
      updateLL (updateLL t d) d2 = updateLL t d) ∧
    (∀ (t : CCState) (q q2 : SolverResult),
      updateCC (updateCC t q) q2 = updateCC t q) ∧
    (∀ (t : CCState) (q q2 : SolverResult),
      updateCL (updateCL t q) q2 = updateCL t q) :=
  ⟨⟨updateLL_noop sLL c h1, updateCC_noop sCC r h2, updateCL_noop sCL r h3⟩,
   fun t d d2 => updateLL_noop _ d2 (updateLL_clears t d),
   fun t q q2 => updateCC_noop _ q2 (updateCC_clears t q),
   fun t q q2 => updateCL_noop _ q2 (updateCL_clears t q)⟩

/-- Witness for claim C7 at concrete clean construct states. -/
theorem C7_update_noop_idempotent_witness :
    stateCleanLL.needsUpdate = false ∧ stateClean.needsUpdate = false ∧
    ((updateLL stateCleanLL (0, 0) = stateCleanLL ∧
      updateCC stateClean (0, (0, 0), (0, 0)) = stateClean ∧
      updateCL stateClean (0, (0, 0), (0, 0)) = stateClean) ∧
     (∀ (t : LLState) (d d2 : Int × Int),
       updateLL (updateLL t d) d2 = updateLL t d) ∧
     (∀ (t : CCState) (q q2 : SolverResult),
       updateCC (updateCC t q) q2 = updateCC t q) ∧
     (∀ (t : CCState) (q q2 : SolverResult),
       updateCL (updateCL t q) q2 = updateCL t q)) :=
  ⟨rfl, rfl,
   C7_update_noop_idempotent stateCleanLL stateClean stateClean (0, 0)
     (0, (0, 0), (0, 0)) rfl rfl rfl⟩

/-- Claim C3 (amended): the Circle-Circle construction branch populates
coordinates, shows both owned points and marks the construct real exactly
when the solver result flag equals one; on any other flag (zero, but also
two) both points are left at the hidden placeholder state and the construct
is marked unreal. -/
theorem C3_amended_circle_circle_construction (n : Nat) (c1 c2 : Int × Int) :
    (n = 1 → (constructCC (n, c1, c2)).1.coords = c1 ∧
      (constructCC (n, c1, c2)).1.visible = true ∧
      (constructCC (n, c1, c2)).1.shown = true ∧
      (constructCC (n, c1, c2)).2.1.coords = c2 ∧
      (constructCC (n, c1, c2)).2.1.visible = true ∧
      (constructCC (n, c1, c2)).2.1.shown = true ∧
      (constructCC (n, c1, c2)).2.2 = true) ∧
    (¬n = 1 → (constructCC (n, c1, c2)).1 = newPoint (0, 0) false ∧
      (constructCC (n, c1, c2)).2.1 = newPoint (0, 0) false ∧
      (constructCC (n, c1, c2)).2.2 = false) := by
  constructor
  · intro h
    subst h
    exact ⟨rfl, rfl, rfl, rfl, rfl, rfl, rfl⟩
  · intro h
    unfold constructCC
    simp [h]

/-- Witness for claim C3 at solver flag one and concrete coordinates. -/
theorem C3_amended_circle_circle_construction_witness :
    (1 : Nat) = 1 ∧
    ((constructCC (1, (5, 6), (7, 8))).1.coords = (5, 6) ∧
     (constructCC (1, (5, 6), (7, 8))).1.visible = true ∧
     (constructCC (1, (5, 6), (7, 8))).1.shown = true ∧
     (constructCC (1, (5, 6), (7, 8))).2.1.coords = (7, 8) ∧
     (constructCC (1, (5, 6), (7, 8))).2.1.visible = true ∧
     (constructCC (1, (5, 6), (7, 8))).2.1.shown = true ∧
     (constructCC (1, (5, 6), (7, 8))).2.2 = true) :=
  ⟨rfl, (C3_amended_circle_circle_construction 1 (5, 6) (7, 8)).1 rfl⟩

/-- Counterexample to claim C3 as stated: at solver count two (at least
one) the construction branch marks the construct unreal and leaves both
points hidden at the placeholder coordinates, contradicting that any count
of at least one populates, shows and marks real. -/
theorem C3_count_two_construction_counterexample :
    (constructCC (2, (1, 2), (3, 4))).2.2 = false ∧
    (constructCC (2, (1, 2), (3, 4))).1.shown = false ∧
    (constructCC (2, (1, 2), (3, 4))).1.coords = (0, 0) ∧
    (constructCC (2, (1, 2), (3, 4))).2.1.shown = false :=
  ⟨rfl, rfl, rfl, rfl⟩

/-- Claim C4 (code behavior at the failing input): the constructor's
existence guard produces the permanent no-op construct only when both
parent references are absent; with exactly one absent parent the guard
does not fire and construction falls through into the Circle-Line else
branch instead of degrading to a no-op. -/
theorem C4_absent_parent_guard_requires_both :
    constructDispatch none none = ConstructOutcome.noop ∧
    constructDispatch none (some ObjType.line) =
      ConstructOutcome.classified Kind.circleLine ∧
    constructDispatch (some ObjType.circle) none =
      ConstructOutcome.classified Kind.circleLine := by
  decide

/-- Claim C8 (code behavior at the failing input): a resolved parent pair
whose types match none of the three supported kinds is not rejected at
construction time; the classification chain falls through to the final
else branch and builds a Circle-Line construct. -/
theorem C8_invalid_pairing_not_rejected :
    constructDispatch (some ObjType.point) (some ObjType.point) =
      ConstructOutcome.classified Kind.circleLine ∧
    constructDispatch (some ObjType.intersection) (some ObjType.point) =
      ConstructOutcome.classified Kind.circleLine := by
  decide

/-- Claim C10: removal deletes from the registry exactly the ids of the
construct's owned points (the single point handle of the Line-Line kind
or the two point handles of the other kinds, each only when defined) and
leaves every other registry entry untouched. -/
theorem C10_remove_exactly_owned_points (r : Registry) (h : OwnedPoints)
    (x : String) :
    removeIntersection r h x =
      (if h.p = some x ∨ h.p1 = some x ∨ h.p2 = some x
        then none else r x) := by
  obtain ⟨p, p1, p2⟩ := h
  unfold removeIntersection removeObject
  cases p <;> cases p1 <;> cases p2 <;>
    · dsimp only
      split_ifs <;> simp_all [eq_comm]

end JXGIntersection
